import Mathlib

/-!
Shallow embedding of the email-assistant application (src/main.py): the
retry-with-exponential-backoff wrapper, the Gmail gateway helpers, the
credential load/refresh logic, the manual OAuth flow, and the per-message
render/caching logic, together with theorems settling the specification
claims.
-/

namespace EmailAssistant

instance [DecidableEq ε] [DecidableEq α] : DecidableEq (Except ε α) := fun a b =>
  match a, b with
  | Except.ok x, Except.ok y =>
      if h : x = y then Decidable.isTrue (by rw [h])
      else Decidable.isFalse (by intro hc; cases hc; exact h rfl)
  | Except.error x, Except.error y =>
      if h : x = y then Decidable.isTrue (by rw [h])
      else Decidable.isFalse (by intro hc; cases hc; exact h rfl)
  | Except.ok _, Except.error _ => Decidable.isFalse (by intro hc; cases hc)
  | Except.error _, Except.ok _ => Decidable.isFalse (by intro hc; cases hc)

/-- Outcome of one run of the retry wrapper: `result` is `some (Except.ok a)`
on success, `some (Except.error e)` when the final attempt's failure is
re-raised, and `none` when `max_retries = 0` (the Python `for` loop body never
runs and the wrapper falls through returning `None`); `waits` lists the
back-off delays slept between attempts; `state` is the final state threaded
through the wrapped operation (for the pure instantiation it counts the
invocations of the operation). -/
structure RetryOut (σ ε α : Type) where
  result : Option (Except ε α)
  waits : List ℚ
  state : σ

/-- Recursion core of the retry decorator (src/main.py lines 40-56).
`attempt` is the 0-based loop index, `rem` the remaining iterations
(`max_retries - attempt`), `delay` the current base delay (doubled after each
failed attempt).  On failure at the last iteration (`rem = 1`, Python's
`attempt == max_retries - 1`) the error is re-raised unmodified; otherwise the
wrapper sleeps `wait = min (delay + jitter) max_delay` and retries.  The
jitter drawn from `random.uniform(0, delay * 0.1)` is modelled by the oracle
`j`, indexed by the attempt number. -/
def retryGo (op : σ → Except ε α × σ) (j : ℕ → ℚ) (maxDelay : ℚ) :
    ℕ → ℕ → ℚ → σ → RetryOut σ ε α
  | _, 0, _, s => ⟨none, [], s⟩
  | attempt, rem + 1, delay, s =>
    match op s with
    | (Except.ok a, s') => ⟨some (Except.ok a), [], s'⟩
    | (Except.error e, s') =>
      if rem = 0 then ⟨some (Except.error e), [], s'⟩
      else
        ⟨(retryGo op j maxDelay (attempt + 1) rem (delay * 2) s').result,
         min (delay + j attempt) maxDelay ::
           (retryGo op j maxDelay (attempt + 1) rem (delay * 2) s').waits,
         (retryGo op j maxDelay (attempt + 1) rem (delay * 2) s').state⟩

/-- `retry_with_exponential_backoff(max_retries, base_delay, max_delay)`
applied to a stateful fallible operation `op`.  The decorated Python function
mutates external state even on a failing attempt, hence the explicit state
threading. -/
def retry_with_exponential_backoff (max_retries : ℕ) (base_delay max_delay : ℚ)
    (j : ℕ → ℚ) (op : σ → Except ε α × σ) (s : σ) : RetryOut σ ε α :=
  retryGo op j max_delay 0 max_retries base_delay s

/-- The wrapper applied to a pure operation whose outcome depends only on the
attempt number; the threaded `ℕ` state counts how many times the operation
has been invoked. -/
def retry_pure (max_retries : ℕ) (base_delay max_delay : ℚ) (j : ℕ → ℚ)
    (op : ℕ → Except ε α) : RetryOut ℕ ε α :=
  retry_with_exponential_backoff max_retries base_delay max_delay j
    (fun n => (op n, n + 1)) 0

lemma retryGo_ok (op : σ → Except ε α × σ) (j : ℕ → ℚ) (M : ℚ)
    (attempt rem : ℕ) (delay : ℚ) (s s' : σ) (a : α)
    (hop : op s = (Except.ok a, s')) :
    retryGo op j M attempt (rem + 1) delay s = ⟨some (Except.ok a), [], s'⟩ := by
  simp [retryGo, hop]

lemma retryGo_last (op : σ → Except ε α × σ) (j : ℕ → ℚ) (M : ℚ)
    (attempt : ℕ) (delay : ℚ) (s s' : σ) (e : ε)
    (hop : op s = (Except.error e, s')) :
    retryGo op j M attempt 1 delay s = ⟨some (Except.error e), [], s'⟩ := by
  simp [retryGo, hop]

lemma retryGo_cons (op : σ → Except ε α × σ) (j : ℕ → ℚ) (M : ℚ)
    (attempt rem : ℕ) (delay : ℚ) (s s' : σ) (e : ε)
    (hop : op s = (Except.error e, s')) (hrem : rem ≠ 0) :
    retryGo op j M attempt (rem + 1) delay s =
      ⟨(retryGo op j M (attempt + 1) rem (delay * 2) s').result,
       min (delay + j attempt) M ::
         (retryGo op j M (attempt + 1) rem (delay * 2) s').waits,
       (retryGo op j M (attempt + 1) rem (delay * 2) s').state⟩ := by
  rw [retryGo, hop]
  simp [hrem]

lemma retryGo_all_fail (op : ℕ → Except ε α) (es : ℕ → ε) (j : ℕ → ℚ) (M : ℚ) :
    ∀ (rem attempt : ℕ) (delay : ℚ), 1 ≤ rem →
      (∀ k, k < rem → op (attempt + k) = Except.error (es (attempt + k))) →
      (retryGo (fun n => (op n, n + 1)) j M attempt rem delay attempt).result
          = some (Except.error (es (attempt + rem - 1))) ∧
        (retryGo (fun n => (op n, n + 1)) j M attempt rem delay attempt).state
          = attempt + rem := by
  intro rem
  induction rem with
  | zero => intro attempt delay h; omega
  | succ r ih =>
    intro attempt delay _ hf
    have ha := hf 0 (by omega)
    rw [Nat.add_zero] at ha
    have h0 : (fun n => (op n, n + 1)) attempt
        = ((Except.error (es attempt) : Except ε α), attempt + 1) := by
      simp [ha]
    cases r with
    | zero =>
      rw [retryGo_last (fun n => (op n, n + 1)) j M attempt delay attempt
        (attempt + 1) (es attempt) h0]
      simp
    | succ r' =>
      have hrec := ih (attempt + 1) (delay * 2) (by omega)
        (fun k hk => by
          have := hf (k + 1) (by omega)
          simpa [Nat.add_assoc, Nat.add_comm 1 k] using this)
      rw [retryGo_cons (fun n => (op n, n + 1)) j M attempt (r' + 1) delay attempt
        (attempt + 1) (es attempt) h0 (by omega)]
      have hidx : attempt + 1 + (r' + 1) - 1 = attempt + (r' + 1 + 1) - 1 := by omega
      refine ⟨?_, ?_⟩
      · dsimp only
        rw [hrec.1, hidx]
      · dsimp only
        rw [hrec.2]
        omega

lemma retry_pure_all_fail (op : ℕ → Except ε α) (es : ℕ → ε) (j : ℕ → ℚ)
    (b M : ℚ) (maxR : ℕ) (h1 : 1 ≤ maxR)
    (hf : ∀ k, k < maxR → op k = Except.error (es k)) :
    (retry_pure maxR b M j op).result = some (Except.error (es (maxR - 1))) ∧
      (retry_pure maxR b M j op).state = maxR := by
  have := retryGo_all_fail op es j M maxR 0 b h1 (fun k hk => by simpa using hf k hk)
  simpa [retry_pure, retry_with_exponential_backoff] using this

lemma retryGo_succeeds (op : ℕ → Except ε α) (es : ℕ → ε) (a : α)
    (j : ℕ → ℚ) (M : ℚ) :
    ∀ (n attempt rem : ℕ) (delay : ℚ), n < rem →
      (∀ k, k < n → op (attempt + k) = Except.error (es (attempt + k))) →
      op (attempt + n) = Except.ok a →
      retryGo (fun c => (op c, c + 1)) j M attempt rem delay attempt =
        ⟨some (Except.ok a),
         (List.range n).map (fun i => min (delay * 2 ^ i + j (attempt + i)) M),
         attempt + n + 1⟩ := by
  intro n
  induction n with
  | zero =>
    intro attempt rem delay hlt hf hs
    obtain ⟨r, rfl⟩ : ∃ r, rem = r + 1 := ⟨rem - 1, by omega⟩
    simp only [Nat.add_zero] at hs
    have h0 : (fun c => (op c, c + 1)) attempt
        = ((Except.ok a : Except ε α), attempt + 1) := by
      simp [hs]
    rw [retryGo_ok (fun c => (op c, c + 1)) j M attempt r delay attempt
      (attempt + 1) a h0]
    simp
  | succ m ih =>
    intro attempt rem delay hlt hf hs
    obtain ⟨r, rfl⟩ : ∃ r, rem = r + 1 := ⟨rem - 1, by omega⟩
    have ha := hf 0 (by omega)
    rw [Nat.add_zero] at ha
    have h0 : (fun c => (op c, c + 1)) attempt
        = ((Except.error (es attempt) : Except ε α), attempt + 1) := by
      simp [ha]
    have hr : r ≠ 0 := by omega
    have hrec := ih (attempt + 1) r (delay * 2) (by omega)
      (fun k hk => by
        have := hf (k + 1) (by omega)
        simpa [Nat.add_assoc, Nat.add_comm 1 k] using this)
      (by simpa [Nat.add_assoc, Nat.add_comm 1 m] using hs)
    rw [retryGo_cons (fun c => (op c, c + 1)) j M attempt r delay attempt
      (attempt + 1) (es attempt) h0 hr, hrec]
    simp only [RetryOut.mk.injEq, true_and]
    refine ⟨?_, by omega⟩
    rw [List.range_succ_eq_map, List.map_cons, List.map_map]
    congr 1
    · simp
    · refine List.map_congr_left (fun i _ => ?_)
      have hidx : attempt + 1 + i = attempt + (i + 1) := by omega
      simp only [Function.comp_apply, Nat.succ_eq_add_one]
      rw [hidx, pow_succ]
      congr 1
      ring

/-- C1 (amended): if the operation fails on every attempt, the retry wrapper
performs exactly `max_retries` attempts in total (one initial invocation plus
`max_retries - 1` retries), then propagates the failure of the final attempt
unmodified and performs no further attempts (the invocation counter in
`state` equals `max_retries`). -/
theorem claim_C1_retry_exhaustion (op : ℕ → Except ε α) (es : ℕ → ε)
    (j : ℕ → ℚ) (b M : ℚ) (maxR : ℕ) (h1 : 1 ≤ maxR)
    (hf : ∀ k, k < maxR → op k = Except.error (es k)) :
    (retry_pure maxR b M j op).result = some (Except.error (es (maxR - 1))) ∧
      (retry_pure maxR b M j op).state = maxR :=
  retry_pure_all_fail op es j b M maxR h1 hf

theorem claim_C1_witness :
    (1 ≤ 3 ∧ ∀ k, k < 3 →
        (fun k => (Except.error k : Except ℕ ℕ)) k = Except.error k) ∧
      (retry_pure 3 15 60 (fun _ => 0)
          (fun k => (Except.error k : Except ℕ ℕ))).result
        = some (Except.error 2) ∧
      (retry_pure 3 15 60 (fun _ => 0)
          (fun k => (Except.error k : Except ℕ ℕ))).state = 3 :=
  ⟨⟨by omega, fun k _ => rfl⟩,
   claim_C1_retry_exhaustion (fun k => (Except.error k : Except ℕ ℕ))
     (fun k => k) (fun _ => 0) 15 60 3 (by omega) (fun k _ => rfl)⟩

/-- C1 counterexample to the claim as stated: with `max_retries = 2` and an
operation failing on every attempt, the wrapper performs 2 attempts, not
`max_retries + 1 = 3`: the loop `for attempt in range(max_retries)` caps the
total number of invocations at `max_retries`. -/
theorem claim_C1_cex :
    (retry_pure 2 15 60 (fun _ => 0)
        (fun k => (Except.error k : Except ℕ ℕ))).state = 2 ∧
      (retry_pure 2 15 60 (fun _ => 0)
          (fun k => (Except.error k : Except ℕ ℕ))).state ≠ 2 + 1 := by
  decide

/-- C2 (amended): if the operation fails `n` times and then succeeds, with
`n < max_retries` (the success attempt must still be within the loop bound),
the wrapper returns the success value and sleeps exactly `n` waits, where the
`i`-th wait (0-based) equals `min (base_delay * 2 ^ i + jitter_i) max_delay`
with `jitter_i` drawn from `[0, 0.1 * (base_delay * 2 ^ i)]`; hence each wait
is at least `min (base_delay * 2 ^ i) max_delay` and at most `max_delay`
(the cap is applied after adding the jitter, and a wait can fall strictly
below `base_delay * 2 ^ i` once `base_delay * 2 ^ i` exceeds `max_delay`). -/
theorem claim_C2_backoff_waits (op : ℕ → Except ε α) (es : ℕ → ε) (a : α)
    (j : ℕ → ℚ) (b M : ℚ) (n maxR : ℕ)
    (hj0 : ∀ i, 0 ≤ j i) (hj1 : ∀ i, j i ≤ b * 2 ^ i / 10)
    (hf : ∀ k, k < n → op k = Except.error (es k))
    (hs : op n = Except.ok a) (hn : n < maxR) :
    (retry_pure maxR b M j op).result = some (Except.ok a) ∧
      (retry_pure maxR b M j op).waits
        = (List.range n).map (fun i => min (b * 2 ^ i + j i) M) ∧
      (retry_pure maxR b M j op).waits.length = n ∧
      (∀ i, i < n → ∃ w, (retry_pure maxR b M j op).waits.get? i = some w ∧
        min (b * 2 ^ i) M ≤ w ∧ w ≤ M) ∧
      (retry_pure maxR b M j op).state = n + 1 := by
  have heq := retryGo_succeeds op es a j M n 0 maxR b hn
    (fun k hk => by simpa using hf k hk) (by simpa using hs)
  have hout : retry_pure maxR b M j op =
      ⟨some (Except.ok a),
       (List.range n).map (fun i => min (b * 2 ^ i + j i) M), n + 1⟩ := by
    rw [retry_pure, retry_with_exponential_backoff, heq]
    simp
  rw [hout]
  refine ⟨rfl, rfl, by simp, ?_, rfl⟩
  intro i hi
  refine ⟨min (b * 2 ^ i + j i) M, ?_, ?_, min_le_right _ _⟩
  · simp [List.get?_map, List.get?_range, hi]
  · exact min_le_min (by linarith [hj0 i]) le_rfl

theorem claim_C2_witness :
    ((∀ i : ℕ, (0 : ℚ) ≤ 0) ∧
      (∀ k, k < 2 → (fun k => if k < 2 then (Except.error k : Except ℕ ℕ)
          else Except.ok 7) k = Except.error k) ∧
      (fun k => if k < 2 then (Except.error k : Except ℕ ℕ)
          else Except.ok 7) 2 = Except.ok 7 ∧ 2 < 5) ∧
      (retry_pure 5 15 60 (fun _ => 0)
          (fun k => if k < 2 then (Except.error k : Except ℕ ℕ)
            else Except.ok 7)).result = some (Except.ok 7) ∧
      (retry_pure 5 15 60 (fun _ => 0)
          (fun k => if k < 2 then (Except.error k : Except ℕ ℕ)
            else Except.ok 7)).waits
        = (List.range 2).map (fun i => min (15 * 2 ^ i + 0) 60) ∧
      (retry_pure 5 15 60 (fun _ => 0)
          (fun k => if k < 2 then (Except.error k : Except ℕ ℕ)
            else Except.ok 7)).waits.length = 2 ∧
      (∀ i, i < 2 → ∃ w,
        (retry_pure 5 15 60 (fun _ => 0)
            (fun k => if k < 2 then (Except.error k : Except ℕ ℕ)
              else Except.ok 7)).waits.get? i = some w ∧
        min ((15 : ℚ) * 2 ^ i) 60 ≤ w ∧ w ≤ 60) ∧
      (retry_pure 5 15 60 (fun _ => 0)
          (fun k => if k < 2 then (Except.error k : Except ℕ ℕ)
            else Except.ok 7)).state = 2 + 1 :=
  ⟨⟨fun _ => le_refl 0, by decide, by decide, by omega⟩,
   claim_C2_backoff_waits
     (fun k => if k < 2 then (Except.error k : Except ℕ ℕ) else Except.ok 7)
     (fun k => k) 7 (fun _ => 0) 15 60 2 5
     (fun _ => le_refl 0) (fun i => by positivity) (by decide) (by decide)
     (by omega)⟩

/-- C2 counterexample to the claim as stated, at `base_delay = 15`,
`max_delay = 60`, maximal jitter `j k = 0.1 * (15 * 2 ^ k)`: (i) the wait
before the retry following failed attempt 2 is `min (60 + 6) 60 = 60`, not
`min 60 60 + 6 = 66` — the cap is applied after adding jitter; (ii) the wait
following failed attempt 3 is `60 < 15 * 2 ^ 3 = 120`, violating the claimed
lower bound `baseDelay * 2 ^ (i - 1)`; (iii) with `n = maxRetries = 1`, an
operation failing once and then succeeding does not return the success value:
the wrapper re-raises the first failure, so the claimed range `n ≤ maxRetries`
is off by one. -/
theorem claim_C2_cex :
    ((retry_pure 6 15 60 (fun k => 15 * 2 ^ k / 10)
        (fun k => if k < 4 then (Except.error k : Except ℕ ℕ)
          else Except.ok 7)).waits.get? 2 = some 60 ∧
      (60 : ℚ) ≠ min 60 60 + 6) ∧
    ((retry_pure 6 15 60 (fun k => 15 * 2 ^ k / 10)
        (fun k => if k < 4 then (Except.error k : Except ℕ ℕ)
          else Except.ok 7)).waits.get? 3 = some 60 ∧
      ¬ ((15 * 2 ^ 3 : ℚ) ≤ 60)) ∧
    (retry_pure 1 15 60 (fun _ => 0)
        (fun k => if k < 1 then (Except.error k : Except ℕ ℕ)
          else Except.ok 7)).result = some (Except.error 0) := by
  have hgen := retryGo_succeeds
    (fun k => if k < 4 then (Except.error k : Except ℕ ℕ) else Except.ok 7)
    (fun k => k) 7 (fun k => 15 * 2 ^ k / 10) 60 4 0 6 15 (by omega)
    (fun k hk => by simp [hk]) rfl
  have hw : (retry_pure 6 15 60 (fun k => 15 * 2 ^ k / 10)
      (fun k => if k < 4 then (Except.error k : Except ℕ ℕ)
        else Except.ok 7)).waits = [33 / 2, 33, 60, 60] := by
    rw [retry_pure, retry_with_exponential_backoff, hgen]
    norm_num [List.range_succ, min_def]
  refine ⟨⟨by rw [hw]; rfl, by norm_num [min_self]⟩,
    ⟨by rw [hw]; rfl, by norm_num⟩, by decide⟩

/-- Python `str.lower()` as performed on header/label strings: per-character
ASCII lowering (kernel-reducible model of `String.toLower`). -/
def pyLower (s : String) : String := String.mk (s.data.map Char.toLower)

/-- Python `str.startswith(p)` (kernel-reducible model of
`String.startsWith`). -/
def pyStartsWith (s p : String) : Bool := p.data.isPrefixOf s.data

/-- A Gmail label as seen through `labels().list()` / `labels().create()`:
`get_or_create_label` reads `label['name']` / `label['id']` and creates with
the two visibility fields (src/main.py lines 98-110). -/
structure GLabel where
  id : String
  name : String
  labelListVisibility : String
  messageListVisibility : String
  deriving DecidableEq, Repr

/-- Provider-side operations the script performs, recorded in order of
successful execution. -/
inductive Op where
  | send (to_addr subject : String) (threadId : Option String)
  | removeUnread (threadId : String)
  | addLabel (threadId : String) (labelId : Option String)
  | createLabel (name : String)
  deriving DecidableEq, Repr

def Op.isSend : Op → Bool
  | Op.send _ _ _ => true
  | _ => false

/-- The thread a recorded operation modifies (`threads().modify`), if any. -/
def Op.threadOf : Op → Option String
  | Op.removeUnread t => some t
  | Op.addLabel t _ => some t
  | _ => none

/-- Observable state of the interaction with the mail provider: a global call
counter (each API call consumes one tick), the provider's current label set,
and the trace of successfully executed mutating operations. -/
structure GmailState where
  time : ℕ
  labels : List GLabel
  trace : List Op
  deriving DecidableEq, Repr

/-- The full message detail returned by `messages().get(...)`: its headers
(name/value pairs), `snippet` and optional `threadId`. -/
structure MsgDetail where
  headers : List (String × String)
  snippet : String
  threadId : Option String

/-- The external world: `F k` says whether the API call at tick `k` raises
(transient failure), `ext k` lists labels created by other callers that become
visible just before tick `k`, `unread` is the provider's unread-message id
list in provider (newest-first) order, `msg` resolves a message id to its full
detail, and `j` is the jitter oracle for the retry wrapper. -/
structure Env where
  F : ℕ → Bool
  ext : ℕ → List GLabel
  unread : List String
  msg : String → MsgDetail
  j : ℕ → ℚ

/-- One provider API call: external label creations appear, the clock ticks,
the call either raises (per `F`, or a server-side rejection inside `eff`) or
performs its effect. -/
def provCall (env : Env) (eff : GmailState → Except Unit (α × GmailState))
    (st : GmailState) : Except Unit α × GmailState :=
  let st1 : GmailState := { st with labels := st.labels ++ env.ext st.time }
  let k := st1.time
  let st2 : GmailState := { st1 with time := k + 1 }
  if env.F k then (Except.error (), st2)
  else
    match eff st2 with
    | Except.error _ => (Except.error (), st2)
    | Except.ok (a, st3) => (Except.ok a, st3)

/-- Body of `get_or_create_label` (src/main.py lines 98-110): list all labels,
return the id of the first whose name matches case-insensitively; otherwise
create the label with visibility `labelShow` / `show`.  The provider rejects
`labels().create` when a label with the same name already exists (modelled as
a failing call). -/
def get_or_create_label_once (label_name : String) (env : Env)
    (st : GmailState) : Except Unit String × GmailState :=
  match provCall env (fun s => Except.ok (s.labels, s)) st with
  | (Except.error e, st1) => (Except.error e, st1)
  | (Except.ok labels, st1) =>
    match labels.find? (fun l => pyLower l.name == pyLower label_name) with
    | some l => (Except.ok l.id, st1)
    | none =>
      provCall env (fun s =>
        if s.labels.any (fun l => l.name == label_name) then Except.error ()
        else
          Except.ok ("Label_" ++ toString s.time,
            { s with
              labels := s.labels ++
                [⟨"Label_" ++ toString s.time, label_name, "labelShow", "show"⟩],
              trace := s.trace ++ [Op.createLabel label_name] })) st1

/-- `get_or_create_label` as decorated:
`@retry_with_exponential_backoff(max_retries=5, base_delay=15)`. -/
def get_or_create_label (label_name : String) (env : Env) (st : GmailState) :
    RetryOut GmailState Unit String :=
  retry_with_exponential_backoff 5 15 60 env.j
    (get_or_create_label_once label_name env) st

/-- Body of `send_email` (src/main.py lines 112-140): build the MIME message
(recipient header is the raw `to` argument; subject gains a `"Re: "` prefix
unless it already starts with `"re:"` case-insensitively), send it, and when a
`thread_id` was given, remove the `UNREAD` label from the thread, obtain the
`"Replied"` label via the decorated `get_or_create_label`, and add it to the
thread.  When the inner retry wrapper falls through (its `max_retries = 5` is
positive, so this cannot happen), Python would bind `label_id = None` and
still call `threads().modify`; the model mirrors that with a `none` label. -/
def send_email_once (env : Env) (to_addr subject body : String)
    (thread_id : Option String) (st : GmailState) :
    Except Unit Unit × GmailState :=
  let subj := if pyStartsWith (pyLower subject) "re:" then subject
              else "Re: " ++ subject
  match provCall env (fun s =>
      Except.ok ((), { s with trace := s.trace ++ [Op.send to_addr subj thread_id] })) st with
  | (Except.error e, st1) => (Except.error e, st1)
  | (Except.ok _, st1) =>
    match thread_id with
    | none => (Except.ok (), st1)
    | some tid =>
      match provCall env (fun s =>
          Except.ok ((), { s with trace := s.trace ++ [Op.removeUnread tid] })) st1 with
      | (Except.error e, st2) => (Except.error e, st2)
      | (Except.ok _, st2) =>
        match (get_or_create_label "Replied" env st2).result with
        | some (Except.error e) => (Except.error e, (get_or_create_label "Replied" env st2).state)
        | r =>
          let labelId : Option String :=
            match r with
            | some (Except.ok lid) => some lid
            | _ => none
          match provCall env (fun s =>
              Except.ok ((), { s with trace := s.trace ++ [Op.addLabel tid labelId] }))
              (get_or_create_label "Replied" env st2).state with
          | (Except.error e, st3) => (Except.error e, st3)
          | (Except.ok _, st3) => (Except.ok (), st3)

/-- `send_email` as decorated:
`@retry_with_exponential_backoff(max_retries=5, base_delay=15)`.  The whole
body — including the provider send — is re-invoked on a failure of any of the
thread modifications that follow it. -/
def send_email (env : Env) (to_addr subject body : String)
    (thread_id : Option String) (st : GmailState) :
    RetryOut GmailState Unit Unit :=
  retry_with_exponential_backoff 5 15 60 env.j
    (send_email_once env to_addr subject body thread_id) st

/-- A listed email as assembled by `get_unread_emails` (src/main.py lines
60-73): id, thread id, Subject and From header values (with the literal
fallbacks `"(No Subject)"` / `"(Unknown Sender)"`), and the snippet. -/
structure Email where
  id : String
  thread_id : Option String
  subject : String
  sender : String
  snippet : String
  deriving DecidableEq, Repr

/-- The per-message loop of `get_unread_emails`: for each listed id, fetch the
full message and extract the `Subject` / `From` header values (first header
with that exact name) and the snippet, appending in the provider's order. -/
def fetch_details (env : Env) : List String → GmailState →
    Except Unit (List Email) × GmailState
  | [], st => (Except.ok [], st)
  | mid :: rest, st =>
    match provCall env (fun s => Except.ok (env.msg mid, s)) st with
    | (Except.error e, st1) => (Except.error e, st1)
    | (Except.ok m, st1) =>
      let subject := ((m.headers.find? (fun h => h.fst == "Subject")).map
        Prod.snd).getD "(No Subject)"
      let sender := ((m.headers.find? (fun h => h.fst == "From")).map
        Prod.snd).getD "(Unknown Sender)"
      match fetch_details env rest st1 with
      | (Except.ok es, st2) =>
        (Except.ok (⟨mid, m.threadId, subject, sender, m.snippet⟩ :: es), st2)
      | (Except.error e, st2) => (Except.error e, st2)

/-- Body of `get_unread_emails`: `messages().list(labelIds=['UNREAD'],
maxResults=10)` (the provider truncates to the first 10 unread ids, in its
newest-first order), then the detail fetch loop.  No reordering is applied to
the provider's list. -/
def get_unread_emails_once (env : Env) (st : GmailState) :
    Except Unit (List Email) × GmailState :=
  match provCall env (fun s => Except.ok (env.unread.take 10, s)) st with
  | (Except.error e, st1) => (Except.error e, st1)
  | (Except.ok ids, st1) => fetch_details env ids st1

/-- `get_unread_emails` as decorated:
`@retry_with_exponential_backoff(max_retries=5, base_delay=15)`. -/
def get_unread_emails (env : Env) (st : GmailState) :
    RetryOut GmailState Unit (List Email) :=
  retry_with_exponential_backoff 5 15 60 env.j (get_unread_emails_once env) st

/-- Fault-free environment: no API call raises and no other caller interferes. -/
def Env.noFault (env : Env) : Prop :=
  (∀ k, env.F k = false) ∧ (∀ k, env.ext k = [])

/-- Environment for the duplicate-send scenario: the API call at tick 1 (the
first `threads().modify` removing `UNREAD`) raises; every other call
succeeds; the `"Replied"` label already exists. -/
def dupSendEnv : Env :=
  ⟨fun k => k == 1, fun _ => [], [], fun _ => ⟨[], "", none⟩, fun _ => 0⟩

/-- Environment in which every `threads().modify` call (each odd tick)
raises, so all five attempts of `send_email` fail after sending. -/
def dupSendFailEnv : Env :=
  ⟨fun k => k % 2 == 1, fun _ => [], [], fun _ => ⟨[], "", none⟩, fun _ => 0⟩

/-- Initial provider state for the duplicate-send scenarios: the `"Replied"`
label already exists, nothing sent yet. -/
def dupSendStart : GmailState :=
  ⟨0, [⟨"LR", "Replied", "labelShow", "show"⟩], []⟩

/-- C5 (confirmed): the send is not atomic under the retry wrapper.  First
scenario: the provider send succeeds, the following unread-marker removal
fails once, the wrapper re-invokes the whole function and the message is sent
a second time — the run ends successfully with two sends recorded.  Second
scenario: every thread modification fails; after the five attempts the final
failure propagates, yet five sends were performed and none is undone. -/
theorem claim_C5_duplicate_send :
    ((send_email dupSendEnv "alice@example.com" "Hello" "b" (some "T1")
          dupSendStart).result = some (Except.ok ()) ∧
      (send_email dupSendEnv "alice@example.com" "Hello" "b" (some "T1")
          dupSendStart).state.trace.countP Op.isSend = 2) ∧
    ((send_email dupSendFailEnv "alice@example.com" "Hello" "b" (some "T1")
          dupSendStart).result = some (Except.error ()) ∧
      (send_email dupSendFailEnv "alice@example.com" "Hello" "b" (some "T1")
          dupSendStart).state.trace.countP Op.isSend = 5) := by
  decide

lemma provCall_pure_nofault (env : Env) (h : env.noFault)
    (f : GmailState → α) (t : ℕ) (L : List GLabel) (tr : List Op) :
    provCall env (fun s => Except.ok (f s, s)) ⟨t, L, tr⟩ =
      (Except.ok (f ⟨t + 1, L, tr⟩), ⟨t + 1, L, tr⟩) := by
  simp [provCall, h.1 t, h.2 t]

lemma provCall_trace_nofault (env : Env) (h : env.noFault) (o : Op)
    (t : ℕ) (L : List GLabel) (tr : List Op) :
    provCall env
        (fun s => Except.ok ((), { s with trace := s.trace ++ [o] }))
        ⟨t, L, tr⟩ =
      (Except.ok (), ⟨t + 1, L, tr ++ [o]⟩) := by
  simp [provCall, h.1 t, h.2 t]

lemma fetch_details_nofault (env : Env) (h : env.noFault) :
    ∀ (ids : List String) (t : ℕ) (L : List GLabel) (tr : List Op),
      fetch_details env ids ⟨t, L, tr⟩ =
        (Except.ok (ids.map (fun mid =>
          ⟨mid, (env.msg mid).threadId,
           (((env.msg mid).headers.find? (fun hd => hd.fst == "Subject")).map
             Prod.snd).getD "(No Subject)",
           (((env.msg mid).headers.find? (fun hd => hd.fst == "From")).map
             Prod.snd).getD "(Unknown Sender)",
           (env.msg mid).snippet⟩)),
         ⟨t + ids.length, L, tr⟩) := by
  intro ids
  induction ids with
  | nil => intro t L tr; simp [fetch_details]
  | cons mid rest ih =>
    intro t L tr
    rw [fetch_details, provCall_pure_nofault env h (fun _ => env.msg mid) t L tr]
    dsimp only
    rw [ih (t + 1) L tr]
    simp only [List.map_cons, List.length_cons]
    refine congrArg₂ Prod.mk rfl ?_
    congr 1
    omega

/-- C3 (amended): with no API failure, `get_unread_emails` returns the listed
messages in the provider's own (newest-first) order — no reversal is applied
— truncated to the fixed `maxResults=10`, each carrying the `Subject` / `From`
header values with the literal defaults `"(No Subject)"` / `"(Unknown
Sender)"` when the header is absent, together with the snippet and thread
id. -/
theorem claim_C3_unread_listing (env : Env) (h : env.noFault)
    (t : ℕ) (L : List GLabel) (tr : List Op) :
    (get_unread_emails env ⟨t, L, tr⟩).result =
      some (Except.ok ((env.unread.take 10).map (fun mid =>
        ⟨mid, (env.msg mid).threadId,
         (((env.msg mid).headers.find? (fun hd => hd.fst == "Subject")).map
           Prod.snd).getD "(No Subject)",
         (((env.msg mid).headers.find? (fun hd => hd.fst == "From")).map
           Prod.snd).getD "(Unknown Sender)",
         (env.msg mid).snippet⟩))) := by
  have honce : get_unread_emails_once env ⟨t, L, tr⟩ =
      (Except.ok ((env.unread.take 10).map (fun mid =>
        ⟨mid, (env.msg mid).threadId,
         (((env.msg mid).headers.find? (fun hd => hd.fst == "Subject")).map
           Prod.snd).getD "(No Subject)",
         (((env.msg mid).headers.find? (fun hd => hd.fst == "From")).map
           Prod.snd).getD "(Unknown Sender)",
         (env.msg mid).snippet⟩)),
       ⟨t + 1 + (env.unread.take 10).length, L, tr⟩) := by
    rw [get_unread_emails_once,
      provCall_pure_nofault env h (fun _ => env.unread.take 10) t L tr]
    dsimp only
    rw [fetch_details_nofault env h (env.unread.take 10) (t + 1) L tr]
  rw [get_unread_emails, retry_with_exponential_backoff,
    retryGo_ok _ env.j 60 0 4 15 _ _ _ honce]

/-- Environment for the C3 counterexample: two unread messages, provider
order (newest-first) `["m2", "m1"]`; `m2` carries Subject/From headers, `m1`
has none. -/
def listCexEnv : Env :=
  ⟨fun _ => false, fun _ => [],
   ["m2", "m1"],
   fun mid => if mid == "m2" then ⟨[("Subject", "S2"), ("From", "F2")], "sn2", some "T2"⟩
              else ⟨[], "sn1", some "T1"⟩,
   fun _ => 0⟩

/-- C3 counterexample to the claim as stated: the gateway does not reverse
the provider's newest-first order (`m2` is returned first, not `m1`), and the
header defaults are the literal strings `"(No Subject)"` / `"(Unknown
Sender)"`, not `"No Subject"` / `"Unknown Sender"`. -/
theorem claim_C3_cex :
    (get_unread_emails listCexEnv ⟨0, [], []⟩).result =
        some (Except.ok
          [⟨"m2", some "T2", "S2", "F2", "sn2"⟩,
           ⟨"m1", some "T1", "(No Subject)", "(Unknown Sender)", "sn1"⟩]) ∧
      (get_unread_emails listCexEnv ⟨0, [], []⟩).result ≠
        some (Except.ok
          [⟨"m1", some "T1", "(No Subject)", "(Unknown Sender)", "sn1"⟩,
           ⟨"m2", some "T2", "S2", "F2", "sn2"⟩]) ∧
      ("(No Subject)" ≠ "No Subject" ∧ "(Unknown Sender)" ≠ "Unknown Sender") := by
  decide

/-- Fault-free witness environment for the C3 theorem: eleven unread ids so
that the `maxResults=10` truncation is visible. -/
def listWitEnv : Env :=
  ⟨fun _ => false, fun _ => [],
   ["a", "b", "c", "d", "e", "f", "g", "h", "i", "j", "k"],
   fun mid => ⟨[("Subject", mid), ("From", "F")], mid, some mid⟩,
   fun _ => 0⟩

theorem claim_C3_witness :
    listWitEnv.noFault ∧
      (get_unread_emails listWitEnv ⟨0, [], []⟩).result =
        some (Except.ok ((listWitEnv.unread.take 10).map (fun mid =>
          ⟨mid, (listWitEnv.msg mid).threadId,
           (((listWitEnv.msg mid).headers.find? (fun hd => hd.fst == "Subject")).map
             Prod.snd).getD "(No Subject)",
           (((listWitEnv.msg mid).headers.find? (fun hd => hd.fst == "From")).map
             Prod.snd).getD "(Unknown Sender)",
           (listWitEnv.msg mid).snippet⟩))) :=
  ⟨⟨fun _ => rfl, fun _ => rfl⟩,
   claim_C3_unread_listing listWitEnv ⟨fun _ => rfl, fun _ => rfl⟩ 0 [] []⟩

lemma gocl_once_found (env : Env) (h : env.noFault) (t : ℕ) (L : List GLabel)
    (tr : List Op) (name : String) (l : GLabel)
    (hfind : L.find? (fun x => pyLower x.name == pyLower name) = some l) :
    get_or_create_label_once name env ⟨t, L, tr⟩
      = (Except.ok l.id, ⟨t + 1, L, tr⟩) := by
  rw [get_or_create_label_once,
    provCall_pure_nofault env h (fun s => s.labels) t L tr]
  dsimp only
  rw [hfind]

lemma gocl_once_absent (env : Env) (h : env.noFault) (t : ℕ) (L : List GLabel)
    (tr : List Op) (name : String)
    (hfind : L.find? (fun x => pyLower x.name == pyLower name) = none) :
    get_or_create_label_once name env ⟨t, L, tr⟩ =
      (Except.ok ("Label_" ++ toString (t + 2)),
       ⟨t + 2,
        L ++ [⟨"Label_" ++ toString (t + 2), name, "labelShow", "show"⟩],
        tr ++ [Op.createLabel name]⟩) := by
  have hany : L.any (fun x => x.name == name) = false := by
    rw [List.any_eq_false]
    intro x hx hbeq
    have hxname : x.name = name := eq_of_beq hbeq
    have := List.find?_eq_none.mp hfind x hx
    exact this (by simp [hxname])
  rw [get_or_create_label_once,
    provCall_pure_nofault env h (fun s => s.labels) t L tr]
  dsimp only
  rw [hfind]
  simp [provCall, h.1 (t + 1), h.2 (t + 1), hany]

lemma gocl_found (env : Env) (h : env.noFault) (t : ℕ) (L : List GLabel)
    (tr : List Op) (name : String) (l : GLabel)
    (hfind : L.find? (fun x => pyLower x.name == pyLower name) = some l) :
    get_or_create_label name env ⟨t, L, tr⟩
      = ⟨some (Except.ok l.id), [], ⟨t + 1, L, tr⟩⟩ := by
  rw [get_or_create_label, retry_with_exponential_backoff,
    retryGo_ok _ env.j 60 0 4 15 _ _ _ (gocl_once_found env h t L tr name l hfind)]

lemma gocl_absent (env : Env) (h : env.noFault) (t : ℕ) (L : List GLabel)
    (tr : List Op) (name : String)
    (hfind : L.find? (fun x => pyLower x.name == pyLower name) = none) :
    get_or_create_label name env ⟨t, L, tr⟩ =
      ⟨some (Except.ok ("Label_" ++ toString (t + 2))), [],
       ⟨t + 2,
        L ++ [⟨"Label_" ++ toString (t + 2), name, "labelShow", "show"⟩],
        tr ++ [Op.createLabel name]⟩⟩ := by
  rw [get_or_create_label, retry_with_exponential_backoff,
    retryGo_ok _ env.j 60 0 4 15 _ _ _ (gocl_once_absent env h t L tr name hfind)]

/-- Environment for the concurrent-creation race: another caller's `"Replied"`
label (id `"L9"`) becomes visible between our `labels().list` (tick 0) and our
`labels().create` (tick 1); the create is rejected by the provider as already
existing, the retry wrapper re-runs the lookup, which now finds the label. -/
def raceEnv : Env :=
  ⟨fun _ => false,
   fun k => if k == 1 then [⟨"L9", "Replied", "labelShow", "show"⟩] else [],
   [], fun _ => ⟨[], "", none⟩, fun _ => 0⟩

/-- C10 (confirmed): `get_or_create_label` (i) looks labels up
case-insensitively and, on a match, returns that label's id without creating
anything; (ii) returns the same id for `"replied"` and `"Replied"` on any
label set; (iii) creates the label with the `labelShow` / `show` visibility
fields only when no case-insensitive match exists; and (iv) tolerates the
concurrent-creation race: when another caller creates `"Replied"` between our
lookup and our create, the rejected create is retried, the new lookup finds
the other caller's label, and no duplicate is ever created. -/
theorem claim_C10_ensure_label :
    (∀ (env : Env), env.noFault → ∀ (t : ℕ) (L : List GLabel) (tr : List Op)
        (name : String) (l : GLabel),
      L.find? (fun x => pyLower x.name == pyLower name) = some l →
      (get_or_create_label name env ⟨t, L, tr⟩).result = some (Except.ok l.id) ∧
      (get_or_create_label name env ⟨t, L, tr⟩).state.labels = L ∧
      (get_or_create_label name env ⟨t, L, tr⟩).state.trace = tr) ∧
    (∀ (env : Env), env.noFault → ∀ (t : ℕ) (L : List GLabel) (tr : List Op),
      (get_or_create_label "replied" env ⟨t, L, tr⟩).result
        = (get_or_create_label "Replied" env ⟨t, L, tr⟩).result) ∧
    (∀ (env : Env), env.noFault → ∀ (t : ℕ) (L : List GLabel) (tr : List Op)
        (name : String),
      L.find? (fun x => pyLower x.name == pyLower name) = none →
      (get_or_create_label name env ⟨t, L, tr⟩).result
          = some (Except.ok ("Label_" ++ toString (t + 2))) ∧
      (get_or_create_label name env ⟨t, L, tr⟩).state.labels
          = L ++ [⟨"Label_" ++ toString (t + 2), name, "labelShow", "show"⟩]) ∧
    ((get_or_create_label "Replied" raceEnv ⟨0, [], []⟩).result
        = some (Except.ok "L9") ∧
      (get_or_create_label "Replied" raceEnv ⟨0, [], []⟩).state.labels
        = [⟨"L9", "Replied", "labelShow", "show"⟩] ∧
      (get_or_create_label "Replied" raceEnv ⟨0, [], []⟩).state.trace.countP
        (fun op => match op with | Op.createLabel _ => true | _ => false) = 0) := by
  refine ⟨?_, ?_, ?_, by decide⟩
  · intro env h t L tr name l hfind
    rw [gocl_found env h t L tr name l hfind]
    exact ⟨rfl, rfl, rfl⟩
  · intro env h t L tr
    have hlow : pyLower "Replied" = pyLower "replied" := by decide
    cases hfind : L.find? (fun x => pyLower x.name == pyLower "replied") with
    | some l =>
      rw [gocl_found env h t L tr "replied" l hfind,
        gocl_found env h t L tr "Replied" l (by rw [hlow]; exact hfind)]
    | none =>
      rw [gocl_absent env h t L tr "replied" hfind,
        gocl_absent env h t L tr "Replied" (by rw [hlow]; exact hfind)]
  · intro env h t L tr name hfind
    rw [gocl_absent env h t L tr name hfind]
    exact ⟨rfl, rfl⟩

theorem claim_C10_witness :
    ([⟨"LR", "REPLIED", "labelShow", "show"⟩].find?
        (fun x => pyLower x.name == pyLower "Replied")
      = some (⟨"LR", "REPLIED", "labelShow", "show"⟩ : GLabel)) ∧
      (get_or_create_label "Replied" listCexEnv
          ⟨0, [⟨"LR", "REPLIED", "labelShow", "show"⟩], []⟩).result
        = some (Except.ok "LR") ∧
      (get_or_create_label "replied" listCexEnv ⟨0, [], []⟩).result
        = (get_or_create_label "Replied" listCexEnv ⟨0, [], []⟩).result ∧
      ([] : List GLabel).find? (fun x => pyLower x.name == pyLower "Replied")
        = none ∧
      (get_or_create_label "Replied" listCexEnv ⟨0, [], []⟩).state.labels
        = [⟨"Label_2", "Replied", "labelShow", "show"⟩] := by
  have hnf : listCexEnv.noFault := ⟨fun _ => rfl, fun _ => rfl⟩
  refine ⟨by decide, ?_, ?_, by decide, ?_⟩
  · exact (claim_C10_ensure_label.1 listCexEnv hnf 0
      [⟨"LR", "REPLIED", "labelShow", "show"⟩] [] "Replied"
      ⟨"LR", "REPLIED", "labelShow", "show"⟩ (by decide)).1
  · exact claim_C10_ensure_label.2.1 listCexEnv hnf 0 [] []
  · exact (claim_C10_ensure_label.2.2.1 listCexEnv hnf 0 [] [] "Replied"
      (by decide)).2

lemma send_email_once_nofault (env : Env) (h : env.noFault) (t : ℕ)
    (L : List GLabel) (tr : List Op) (to_addr subject body tid : String) :
    ∃ lid rest,
      send_email_once env to_addr subject body (some tid) ⟨t, L, tr⟩
          = (Except.ok (),
             ⟨t + 4 + rest.length,
              L ++ rest.map (fun _ => ⟨lid, "Replied", "labelShow", "show"⟩),
              tr ++ Op.send to_addr
                  (if pyStartsWith (pyLower subject) "re:" then subject
                   else "Re: " ++ subject) (some tid)
                :: Op.removeUnread tid
                :: (rest ++ [Op.addLabel tid (some lid)])⟩) ∧
        (rest = [] ∨ rest = [Op.createLabel "Replied"]) := by
  cases hfind : L.find? (fun x => pyLower x.name == pyLower "Replied") with
  | some l =>
    refine ⟨l.id, [], ?_, Or.inl rfl⟩
    rw [send_email_once]
    dsimp only
    rw [provCall_trace_nofault env h
      (Op.send to_addr
        (if pyStartsWith (pyLower subject) "re:" then subject
         else "Re: " ++ subject) (some tid)) t L tr]
    dsimp only
    rw [provCall_trace_nofault env h (Op.removeUnread tid) (t + 1) L _]
    dsimp only
    rw [gocl_found env h (t + 2) L _ "Replied" l hfind]
    dsimp only
    rw [provCall_trace_nofault env h (Op.addLabel tid (some l.id)) (t + 3) L _]
    simp [List.append_assoc]
  | none =>
    refine ⟨"Label_" ++ toString (t + 4), [Op.createLabel "Replied"], ?_,
      Or.inr rfl⟩
    rw [send_email_once]
    dsimp only
    rw [provCall_trace_nofault env h
      (Op.send to_addr
        (if pyStartsWith (pyLower subject) "re:" then subject
         else "Re: " ++ subject) (some tid)) t L tr]
    dsimp only
    rw [provCall_trace_nofault env h (Op.removeUnread tid) (t + 1) L _]
    dsimp only
    rw [gocl_absent env h (t + 2) L _ "Replied" hfind]
    dsimp only
    rw [provCall_trace_nofault env h
      (Op.addLabel tid (some ("Label_" ++ toString (t + 4)))) (t + 4) _ _]
    simp [List.append_assoc]

lemma send_email_nofault (env : Env) (h : env.noFault) (t : ℕ)
    (L : List GLabel) (tr : List Op) (to_addr subject body tid : String) :
    ∃ lid rest,
      (send_email env to_addr subject body (some tid) ⟨t, L, tr⟩).result
          = some (Except.ok ()) ∧
      (send_email env to_addr subject body (some tid) ⟨t, L, tr⟩).state.trace
          = tr ++ Op.send to_addr
                (if pyStartsWith (pyLower subject) "re:" then subject
                 else "Re: " ++ subject) (some tid)
              :: Op.removeUnread tid
              :: (rest ++ [Op.addLabel tid (some lid)]) ∧
        (rest = [] ∨ rest = [Op.createLabel "Replied"]) := by
  obtain ⟨lid, rest, honce, hrest⟩ :=
    send_email_once_nofault env h t L tr to_addr subject body tid
  refine ⟨lid, rest, ?_⟩
  rw [send_email, retry_with_exponential_backoff,
    retryGo_ok _ env.j 60 0 4 15 _ _ _ honce]
  exact ⟨rfl, rfl, hrest⟩

/-- C8 (confirmed): a fault-free `send_email` with a `thread_id` succeeds,
removes the unread marker from that thread, adds the (ensured) `"Replied"`
label to that thread, sends exactly one message, and performs no modification
of any other thread or message: every recorded operation either touches no
thread or touches exactly the given `thread_id`. -/
theorem claim_C8_send_effects (env : Env) (h : env.noFault) (t : ℕ)
    (L : List GLabel) (to_addr subject body tid : String) :
    (send_email env to_addr subject body (some tid) ⟨t, L, []⟩).result
        = some (Except.ok ()) ∧
      Op.removeUnread tid
        ∈ (send_email env to_addr subject body (some tid) ⟨t, L, []⟩).state.trace ∧
      (∃ lid, Op.addLabel tid (some lid)
        ∈ (send_email env to_addr subject body (some tid) ⟨t, L, []⟩).state.trace) ∧
      (send_email env to_addr subject body (some tid)
          ⟨t, L, []⟩).state.trace.countP Op.isSend = 1 ∧
      (∀ op ∈ (send_email env to_addr subject body (some tid)
          ⟨t, L, []⟩).state.trace,
        op.threadOf = none ∨ op.threadOf = some tid) := by
  obtain ⟨lid, rest, hres, htr, hrest⟩ :=
    send_email_nofault env h t L [] to_addr subject body tid
  refine ⟨hres, ?_, ⟨lid, ?_⟩, ?_, ?_⟩ <;> rw [htr] <;>
    rcases hrest with rfl | rfl <;>
    simp [Op.isSend, Op.threadOf, List.countP_cons]

theorem claim_C8_witness :
    listWitEnv.noFault ∧
      (send_email listWitEnv "a@b.c" "Hi" "b" (some "T2") ⟨0, [], []⟩).result
          = some (Except.ok ()) ∧
      Op.removeUnread "T2"
        ∈ (send_email listWitEnv "a@b.c" "Hi" "b" (some "T2")
            ⟨0, [], []⟩).state.trace ∧
      (∃ lid, Op.addLabel "T2" (some lid)
        ∈ (send_email listWitEnv "a@b.c" "Hi" "b" (some "T2")
            ⟨0, [], []⟩).state.trace) ∧
      (send_email listWitEnv "a@b.c" "Hi" "b" (some "T2")
          ⟨0, [], []⟩).state.trace.countP Op.isSend = 1 ∧
      (∀ op ∈ (send_email listWitEnv "a@b.c" "Hi" "b" (some "T2")
          ⟨0, [], []⟩).state.trace,
        op.threadOf = none ∨ op.threadOf = some "T2") :=
  ⟨⟨fun _ => rfl, fun _ => rfl⟩,
   claim_C8_send_effects listWitEnv ⟨fun _ => rfl, fun _ => rfl⟩ 0 []
     "a@b.c" "Hi" "b" "T2"⟩

/-- C9 (amended): no bare-address extraction is performed anywhere: the
recipient header of the message actually sent is the raw sender string passed
at the call site (`send_email(service, email['sender'], ...)`), unchanged —
for a bare `"addr@host"` this coincides with the claimed extraction, but for
`"Display Name <addr@host>"` the full display string is used as recipient. -/
theorem claim_C9_recipient_raw (env : Env) (h : env.noFault) (t : ℕ)
    (L : List GLabel) (sender subject body tid : String) :
    ∀ op ∈ (send_email env sender subject body (some tid)
        ⟨t, L, []⟩).state.trace,
      op.isSend = true →
      op = Op.send sender
        (if pyStartsWith (pyLower subject) "re:" then subject
         else "Re: " ++ subject) (some tid) := by
  obtain ⟨lid, rest, hres, htr, hrest⟩ :=
    send_email_nofault env h t L [] sender subject body tid
  rw [htr]
  rcases hrest with rfl | rfl
  · intro op hop hsend
    simp at hop
    rcases hop with rfl | rfl | rfl <;> simp_all [Op.isSend]
  · intro op hop hsend
    simp at hop
    rcases hop with rfl | rfl | rfl | rfl <;> simp_all [Op.isSend]

theorem claim_C9_witness :
    listWitEnv.noFault ∧
      (∀ op ∈ (send_email listWitEnv "Jane Doe <jane@x.com>" "Hi" "b"
          (some "T1") ⟨0, [], []⟩).state.trace,
        op.isSend = true →
        op = Op.send "Jane Doe <jane@x.com>"
          (if pyStartsWith (pyLower "Hi") "re:" then "Hi"
           else "Re: " ++ "Hi") (some "T1")) :=
  ⟨⟨fun _ => rfl, fun _ => rfl⟩,
   claim_C9_recipient_raw listWitEnv ⟨fun _ => rfl, fun _ => rfl⟩ 0 []
     "Jane Doe <jane@x.com>" "Hi" "b" "T1"⟩

/-- C9 counterexample to the claim as stated: sending a reply to the sender
string `"Jane Doe <jane@x.com>"` records a send whose recipient is the whole
string, not the extracted `"jane@x.com"` — no text-between-angle-brackets
extraction exists in the code. -/
theorem claim_C9_cex :
    (send_email listCexEnv "Jane Doe <jane@x.com>" "Hi" "b" (some "T1")
        ⟨0, [⟨"LR", "Replied", "labelShow", "show"⟩], []⟩).state.trace
      = [Op.send "Jane Doe <jane@x.com>" "Re: Hi" (some "T1"),
         Op.removeUnread "T1", Op.addLabel "T1" (some "LR")] ∧
      "Jane Doe <jane@x.com>" ≠ "jane@x.com" := by
  decide

/-- The authorization material as the script observes it: google
`Credentials` exposing `.valid`, `.expired` and a possibly absent
`.refresh_token` (src/main.py lines 157-158, 189-197). -/
structure Credential where
  valid : Bool
  expired : Bool
  refresh_token : Bool
  deriving DecidableEq, Repr

/-- Result of the module-level credential bootstrap: the credential placed in
the session (none leaves the app unauthenticated) and whether `save_creds`
persisted a refreshed credential. -/
structure LoadOutcome where
  sessionCreds : Option Credential
  saved : Bool
  deriving DecidableEq, Repr

/-- Module-level load-or-refresh (src/main.py lines 189-197): load the stored
credential; if `creds_valid` (present and `.valid`) serve it; else if present,
expired and refreshable, call `creds.refresh(Request())` — whose outcome is
`refreshResult` — then persist and serve it.  There is no `try`/`except`
around the refresh: a refresh failure propagates out of the script
(`Except.error`).  A present but unrefreshable or absent credential leaves the
session unauthenticated. -/
def load_or_refresh (stored : Option Credential)
    (refreshResult : Except String Credential) : Except String LoadOutcome :=
  match stored with
  | none => Except.ok ⟨none, false⟩
  | some c =>
    if c.valid then Except.ok ⟨some c, false⟩
    else if c.expired && c.refresh_token then
      match refreshResult with
      | Except.error e => Except.error e
      | Except.ok c' => Except.ok ⟨some c', true⟩
    else Except.ok ⟨none, false⟩

/-- C4 (amended): on entry, an expired credential with a refresh token is
refreshed and the refreshed credential is persisted and served
(Authenticated); an expired credential without a refresh token leaves the
session unauthenticated; but a refresh failure is NOT caught: it propagates
as an unhandled error instead of transitioning to Unauthenticated. -/
theorem claim_C4_credential_refresh (c c' : Credential) (e : String)
    (hv : c.valid = false) (he : c.expired = true) :
    (c.refresh_token = true →
      load_or_refresh (some c) (Except.ok c') = Except.ok ⟨some c', true⟩) ∧
    (c.refresh_token = false →
      ∀ r, load_or_refresh (some c) r = Except.ok ⟨none, false⟩) ∧
    (c.refresh_token = true →
      load_or_refresh (some c) (Except.error e) = Except.error e) := by
  refine ⟨fun hrt => ?_, fun hrt r => ?_, fun hrt => ?_⟩ <;>
    simp [load_or_refresh, hv, he, hrt]

theorem claim_C4_witness :
    ((⟨false, true, true⟩ : Credential).valid = false ∧
      (⟨false, true, true⟩ : Credential).expired = true) ∧
      ((⟨false, true, true⟩ : Credential).refresh_token = true →
        load_or_refresh (some ⟨false, true, true⟩)
            (Except.ok ⟨true, false, true⟩)
          = Except.ok ⟨some ⟨true, false, true⟩, true⟩) ∧
      ((⟨false, true, true⟩ : Credential).refresh_token = false →
        ∀ r, load_or_refresh (some ⟨false, true, true⟩) r
          = Except.ok ⟨none, false⟩) ∧
      ((⟨false, true, true⟩ : Credential).refresh_token = true →
        load_or_refresh (some ⟨false, true, true⟩) (Except.error "boom")
          = Except.error "boom") :=
  ⟨⟨rfl, rfl⟩,
   claim_C4_credential_refresh ⟨false, true, true⟩ ⟨true, false, true⟩ "boom"
     rfl rfl⟩

/-- C4 counterexample to the claim as stated: with an expired, refreshable
stored credential whose refresh fails, the module-level code propagates the
failure (the script crashes) — it does not transition to `Unauthenticated`. -/
theorem claim_C4_cex :
    load_or_refresh (some ⟨false, true, true⟩) (Except.error "refresh failed")
        = Except.error "refresh failed" ∧
      (Except.error "refresh failed" : Except String LoadOutcome)
        ≠ Except.ok ⟨none, false⟩ := by
  decide

/-- Session state relevant to the manual OAuth flow: the credential handle,
whether a flow object (and auth URL) exists, and the `auth_started` gate
(src/main.py lines 29-31, 160-185, 200-206). -/
structure UIState where
  creds : Option Credential
  flow : Bool
  auth_started : Bool
  deriving DecidableEq, Repr

/-- `authenticate_manual` (src/main.py lines 160-185): create the flow and
authorization URL if absent, read the pasted code from the text input, and —
whenever the code is non-empty — call `flow.fetch_token(code=code)` (outcome
`exchange`), storing and persisting the credential on success; any failure is
caught and rendered as an error message.  The returned Bool reports whether a
token exchange was attempted.  Nothing checks whether the session already
holds a credential. -/
def authenticate_manual (s : UIState) (code : String)
    (exchange : Except String Credential) : UIState × Bool :=
  let s1 := if s.flow then s else { s with flow := true }
  if code = "" then (s1, false)
  else
    match exchange with
    | Except.ok c => ({ s1 with creds := some c }, true)
    | Except.error _ => (s1, true)

/-- The Gmail-connection section of one script re-execution (src/main.py
lines 200-206): the Connect button (shown only without a credential) sets
`auth_started` and reruns; on any run with `auth_started` set,
`authenticate_manual` runs.  `auth_started` is never reset to `False`, and
`authenticate_manual` is invoked even when the session is already
authenticated. -/
def ui_render (s : UIState) (connectClicked : Bool) (code : String)
    (exchange : Except String Credential) : UIState × Bool :=
  if s.creds.isNone && connectClicked then
    ({ s with auth_started := true }, false)
  else if s.auth_started then authenticate_manual s code exchange
  else (s, false)

/-- C6 (amended): the session does NOT reject or ignore a resubmitted code:
`auth_started` is never cleared and `authenticate_manual` never gates on an
existing credential, so on every re-execution in which the pasted code is
still present, the token exchange is re-attempted — even when the session is
already authenticated (the stale-flow failure is then caught and displayed). -/
theorem claim_C6_resubmitted_code (s : UIState) (click : Bool) (code : String)
    (exchange : Except String Credential)
    (hstart : s.auth_started = true) (hcode : code ≠ "")
    (hcreds : s.creds.isSome = true) :
    (ui_render s click code exchange).2 = true := by
  have hnone : s.creds.isNone = false := by
    cases hc : s.creds with
    | none => rw [hc] at hcreds; cases hcreds
    | some c => rfl
  simp only [ui_render, authenticate_manual, hnone, hstart, Bool.false_and,
    Bool.false_eq_true, if_false, if_true, if_neg hcode]
  cases exchange <;> simp

/-- C6 counterexample to the claim as stated: starting from the
awaiting-code state, a successful exchange authenticates the session; the
next re-execution with the same code still pasted attempts a second token
exchange against the stale flow. -/
theorem claim_C6_cex :
    (ui_render ⟨none, true, true⟩ false "c"
        (Except.ok ⟨true, false, false⟩)).2 = true ∧
      (ui_render ⟨none, true, true⟩ false "c"
          (Except.ok ⟨true, false, false⟩)).1.creds
        = some ⟨true, false, false⟩ ∧
      (ui_render (ui_render ⟨none, true, true⟩ false "c"
          (Except.ok ⟨true, false, false⟩)).1 false "c"
          (Except.error "invalid_grant")).2 = true := by
  decide

theorem claim_C6_witness :
    ((⟨some ⟨true, false, false⟩, true, true⟩ : UIState).auth_started = true ∧
      "c" ≠ "" ∧
      (⟨some ⟨true, false, false⟩, true, true⟩ : UIState).creds.isSome = true) ∧
      (ui_render ⟨some ⟨true, false, false⟩, true, true⟩ false "c"
        (Except.error "invalid_grant")).2 = true :=
  ⟨⟨rfl, by decide, rfl⟩,
   claim_C6_resubmitted_code ⟨some ⟨true, false, false⟩, true, true⟩ false "c"
     (Except.error "invalid_grant") rfl (by decide) rfl⟩

/-- Python `str.strip()` (kernel-reducible model of `String.trim`): drop
whitespace from both ends. -/
def pyStrip (s : String) : String :=
  String.mk
    (((s.data.dropWhile Char.isWhitespace).reverse.dropWhile
      Char.isWhitespace).reverse)

/-- Body of `summarize_email` (src/main.py lines 75-85): the empty or
whitespace-only snippet short-circuits to a fixed placeholder without any
generative call; otherwise the summarization prompt is issued and the
response text is stripped.  The generative capability is the oracle `llm`;
the second component lists the prompts actually sent to it.  The decorating
retry wrapper returns the first attempt's value for a total capability and is
therefore omitted here. -/
def summarize_email (llm : String → String) (snippet : String) :
    String × List String :=
  if pyStrip snippet == "" then ("(No content to summarize)", [])
  else
    (pyStrip (llm ("Summarize this email snippet in 2 sentences:\n\n" ++ snippet)),
     ["Summarize this email snippet in 2 sentences:\n\n" ++ snippet])

/-- Body of `generate_reply` (src/main.py lines 87-96): fixed placeholder for
an empty snippet, otherwise a prompt combining the instruction and snippet,
with the stripped response.  Same conventions as `summarize_email`. -/
def generate_reply (llm : String → String) (snippet instruction : String) :
    String × List String :=
  if pyStrip snippet == "" then ("No email content to reply to.", [])
  else
    (pyStrip (llm (instruction ++ "\n\nEmail snippet:\n" ++ snippet ++
       "\n\nWrite a professional reply:")),
     [instruction ++ "\n\nEmail snippet:\n" ++ snippet ++
       "\n\nWrite a professional reply:"])

/-- The per-message slice of `st.session_state`: the values stored under the
keys `summary_{id}` and `reply_{id}`. -/
structure MsgSession where
  summary : Option String
  reply : Option String
  deriving DecidableEq, Repr

/-- One render pass for a single unread message (src/main.py lines 226-253):
the summary is generated only when `summary_{id}` is absent; the reply is
generated when `reply_{id}` is absent or equals the literal sentinel
`"Error generating reply."` (the prompt combines the instruction text area
and the details input); the Regenerate button re-invokes `generate_reply`
unconditionally.  Returns the updated per-message session state and the list
of prompts sent to the generative capability during this pass. -/
def render_message (llm : String → String) (sess : MsgSession)
    (snippet instruction details : String) (regenClicked : Bool) :
    MsgSession × List String :=
  let sumStep : String × List String :=
    match sess.summary with
    | some s => (s, [])
    | none => summarize_email llm snippet
  let repStep : String × List String :=
    match sess.reply with
    | some r =>
      if r == "Error generating reply." then
        generate_reply llm snippet (instruction ++ "\n\nDetails: " ++ details)
      else (r, [])
    | none =>
      generate_reply llm snippet (instruction ++ "\n\nDetails: " ++ details)
  let regenStep : String × List String :=
    if regenClicked then
      generate_reply llm snippet (instruction ++ "\n\nDetails: " ++ details)
    else (repStep.1, [])
  (⟨some sumStep.1, some regenStep.1⟩, sumStep.2 ++ repStep.2 ++ regenStep.2)

/-- C7 (amended): caching is keyed per message id, not per
(snippet, instruction) pair: a repeated render of a message whose summary and
reply already sit in the session issues no generative call and leaves the
cached values unchanged — whatever the current instruction — provided the
cached reply is not the literal sentinel `"Error generating reply."`; the
explicit Regenerate action is a bypass that re-invokes the capability. -/
theorem claim_C7_render_cache (llm : String → String) (s r : String)
    (snippet instruction details : String)
    (hrerr : r ≠ "Error generating reply.") :
    render_message llm ⟨some s, some r⟩ snippet instruction details false
        = (⟨some s, some r⟩, []) ∧
      render_message llm ⟨some s, some r⟩ snippet instruction details true
        = (⟨some s,
            some (generate_reply llm snippet
              (instruction ++ "\n\nDetails: " ++ details)).1⟩,
           (generate_reply llm snippet
             (instruction ++ "\n\nDetails: " ++ details)).2) := by
  have hbeq : (r == "Error generating reply.") = false :=
    beq_eq_false_iff_ne.mpr hrerr
  constructor <;> simp [render_message, hbeq]

/-- Echo capability used in the C7 scenarios: the response embeds the whole
prompt, so replies generated from different instructions differ. -/
def echoLLM : String → String := fun p => "OUT:" ++ p

theorem claim_C7_witness :
    ((render_message echoLLM ⟨none, none⟩ "S" "A" "D" false).1.reply
          = some (generate_reply echoLLM "S" ("A" ++ "\n\nDetails: " ++ "D")).1 ∧
        (generate_reply echoLLM "S" ("A" ++ "\n\nDetails: " ++ "D")).1
          ≠ "Error generating reply.") ∧
      render_message echoLLM
          ⟨some "sum", some (generate_reply echoLLM "S"
            ("A" ++ "\n\nDetails: " ++ "D")).1⟩ "S" "A" "D" false
        = (⟨some "sum", some (generate_reply echoLLM "S"
            ("A" ++ "\n\nDetails: " ++ "D")).1⟩, []) :=
  ⟨⟨by decide, by decide⟩,
   (claim_C7_render_cache echoLLM "sum"
     (generate_reply echoLLM "S" ("A" ++ "\n\nDetails: " ++ "D")).1
     "S" "A" "D" (by decide)).1⟩

/-- C7 counterexample to the claim as stated: render a message once with
instruction `"A"` (filling the cache), then render it again with instruction
`"B"`: no generative call is made and the reply cached for `"A"` is served,
although the (snippet, instruction) pair changed — the cache key is the
message id alone, not the (snippet, instruction) pair. -/
theorem claim_C7_cex :
    (render_message echoLLM
        (render_message echoLLM ⟨none, none⟩ "S" "A" "D" false).1
        "S" "B" "D" false).2 = [] ∧
      (render_message echoLLM
          (render_message echoLLM ⟨none, none⟩ "S" "A" "D" false).1
          "S" "B" "D" false).1.reply
        = some (generate_reply echoLLM "S" ("A" ++ "\n\nDetails: " ++ "D")).1 ∧
      (generate_reply echoLLM "S" ("A" ++ "\n\nDetails: " ++ "D")).1
        ≠ (generate_reply echoLLM "S" ("B" ++ "\n\nDetails: " ++ "D")).1 := by
  decide
